import Mathlib

/-!
Verification of the EAIP_Viewer security and format core (`src/core/`).

Shallow embedding conventions used throughout this file:

* Python `bytes` values are modelled as `List Nat`, one element per byte
  (every element of a byte string produced by the modelled code is `< 256`).
* Python `str` values are modelled as Lean `String`s; where a string is
  immediately converted to its UTF-8 encoding (`.encode("utf-8")`) the model
  works directly with the byte list, and `str.encode` / `bytes.decode`
  (which are exact inverses on valid Unicode text) are modelled as the
  identity on that representation.
* Machine integers are `Nat`; `struct.pack` range checks are modelled
  explicitly (`to_bytes` returns `none` where `struct.error` is raised).
* Fallible Python code returns `Except` or `Option`.
* `datetime.now()` and other ambient inputs (device fingerprint, network
  and server behaviour, fresh IVs) are passed as explicit parameters.
-/

/-! ## Byte-level helpers (model of `struct.pack`/`struct.unpack`) -/

/-- Little-endian encoding of a natural number on `w` bytes, as produced by
the integer codes of the little-endian `struct.pack` format. -/
def packLE : Nat → Nat → List Nat
  | 0, _ => []
  | w + 1, n => n % 256 :: packLE w (n / 256)

/-- Little-endian decoding of a byte list, as done by the little-endian `struct.unpack` format. -/
def unpackLE (bs : List Nat) : Nat :=
  bs.foldr (fun b acc => b + 256 * acc) 0

/-- Model of packing a byte string with the fixed-width `s` format code:
truncated to the width, right-padded with NUL bytes. -/
def packBytes (w : Nat) (b : List Nat) : List Nat :=
  b.take w ++ List.replicate (w - b.length) 0

/-- Model of NUL-byte `bytes.rstrip`: remove trailing zero bytes. -/
def rstripZeros (l : List Nat) : List Nat :=
  (l.reverse.dropWhile (fun b => b == 0)).reverse

/-! ## Model of `src/core/aipkg_format.py` -/

def HEADER_SIZE : Nat := 512

/-- The constant `MAGIC_NUMBER`, the four bytes of the ASCII string AIPK. -/
def MAGIC_NUMBER : List Nat := [65, 73, 80, 75]

def CURRENT_VERSION_MAJOR : Nat := 1
def CURRENT_VERSION_MINOR : Nat := 0

def COMPRESSION_NONE : Nat := 0
def COMPRESSION_GZIP : Nat := 1

def ENCRYPTION_AES_256_GCM : Nat := 1

/-- The `AIPKGHeader` dataclass.  `metadata` is represented by the UTF-8
encoding of the Python string (see the conventions above). -/
structure AIPKGHeader where
  magic : List Nat := MAGIC_NUMBER
  version_major : Nat := CURRENT_VERSION_MAJOR
  version_minor : Nat := CURRENT_VERSION_MINOR
  index_offset : Nat := 0
  index_length : Nat := 0
  index_iv : List Nat := []
  master_salt : List Nat := []
  file_hash : List Nat := []
  created_timestamp : Nat := 0
  total_files : Nat := 0
  total_data_size : Nat := 0
  compression_algo : Nat := COMPRESSION_GZIP
  encryption_algo : Nat := ENCRYPTION_AES_256_GCM
  metadata : List Nat := []
  reserved : List Nat := []
deriving Repr, DecidableEq

/-- Model of `AIPKGHeader.__post_init__`: a zero timestamp is replaced by the current
time, and empty byte fields are replaced by zero padding of the field width.
`now` stands for `int(datetime.now().timestamp())`. -/
def postInit (now : Nat) (h : AIPKGHeader) : AIPKGHeader :=
  let h1 := if h.created_timestamp = 0 then { h with created_timestamp := now } else h
  let h2 := if h1.index_iv.length = 0 then { h1 with index_iv := List.replicate 32 0 } else h1
  let h3 := if h2.master_salt.length = 0 then { h2 with master_salt := List.replicate 32 0 } else h2
  let h4 := if h3.file_hash.length = 0 then { h3 with file_hash := List.replicate 64 0 } else h3
  if h4.reserved.length = 0 then { h4 with reserved := List.replicate 200 0 } else h4

/-- Model of `AIPKGHeader.to_bytes`: the packed layout `4sHHQQ32s32s64sQQQII128s200s`,
with the metadata string UTF-8 encoded, truncated to 128 bytes and NUL-padded.
Returns `none` where `struct.pack` would raise (integer out of field range). -/
def AIPKGHeader.to_bytes (h : AIPKGHeader) : Option (List Nat) :=
  let metadata_bytes := packBytes 128 h.metadata
  if h.version_major < 2 ^ 16 ∧ h.version_minor < 2 ^ 16 ∧
      h.index_offset < 2 ^ 64 ∧ h.index_length < 2 ^ 64 ∧
      h.created_timestamp < 2 ^ 64 ∧ h.total_files < 2 ^ 64 ∧
      h.total_data_size < 2 ^ 64 ∧
      h.compression_algo < 2 ^ 32 ∧ h.encryption_algo < 2 ^ 32 then
    some (packBytes 4 h.magic ++
      packLE 2 h.version_major ++ packLE 2 h.version_minor ++
      packLE 8 h.index_offset ++ packLE 8 h.index_length ++
      packBytes 32 h.index_iv ++ packBytes 32 h.master_salt ++
      packBytes 64 h.file_hash ++
      packLE 8 h.created_timestamp ++ packLE 8 h.total_files ++
      packLE 8 h.total_data_size ++
      packLE 4 h.compression_algo ++ packLE 4 h.encryption_algo ++
      metadata_bytes ++ packBytes 200 h.reserved)
  else
    none

/-- Model of `AIPKGHeader.from_bytes`: checks the length and the magic, unpacks the
fixed layout, NUL-strips the metadata field and builds the dataclass (running
`__post_init__`).  `now` stands for the clock read in `__post_init__`. -/
def AIPKGHeader.from_bytes (now : Nat) (data : List Nat) : Except String AIPKGHeader :=
  if data.length ≠ HEADER_SIZE then
    .error "Invalid header size"
  else
    let magic := data.take 4
    if magic ≠ MAGIC_NUMBER then
      .error "Invalid magic number"
    else
      let field := fun (off len : Nat) => (data.drop off).take len
      .ok (postInit now {
        magic := magic
        version_major := unpackLE (field 4 2)
        version_minor := unpackLE (field 6 2)
        index_offset := unpackLE (field 8 8)
        index_length := unpackLE (field 16 8)
        index_iv := field 24 32
        master_salt := field 56 32
        file_hash := field 88 64
        created_timestamp := unpackLE (field 152 8)
        total_files := unpackLE (field 160 8)
        total_data_size := unpackLE (field 168 8)
        compression_algo := unpackLE (field 176 4)
        encryption_algo := unpackLE (field 180 4)
        metadata := rstripZeros (field 184 128)
        reserved := field 312 200 })

/-- Model of `validate_header`: the structural validator of `aipkg_format.py`. -/
def validate_header (h : AIPKGHeader) : Bool × String :=
  if h.magic ≠ MAGIC_NUMBER then (false, "Invalid magic number")
  else if h.version_major > CURRENT_VERSION_MAJOR then (false, "Unsupported version")
  else if h.index_offset < HEADER_SIZE then (false, "Invalid index offset")
  else if h.index_length = 0 then (false, "Index length is zero")
  else if h.index_iv.length ≠ 32 then (false, "Invalid index IV length")
  else if h.master_salt.length ≠ 32 then (false, "Invalid master salt length")
  else (true, "")

/-! ## Claims C2 and C9: header encode/decode -/

set_option maxRecDepth 10000

/-- A header whose fields all have valid widths but whose 4-byte magic is
`XXXX` rather than `AIPK`. -/
def hdrBadMagic : AIPKGHeader :=
  { magic := [88, 88, 88, 88]
    version_major := 1
    version_minor := 0
    index_offset := 512
    index_length := 100
    index_iv := List.replicate 32 1
    master_salt := List.replicate 32 2
    file_hash := List.replicate 64 3
    created_timestamp := 5
    total_files := 0
    total_data_size := 0
    compression_algo := 1
    encryption_algo := 1
    metadata := [101]
    reserved := List.replicate 200 0 }

/-- A concrete header satisfying all hypotheses of the amended round-trip. -/
def hdrGood : AIPKGHeader :=
  { magic := MAGIC_NUMBER
    version_major := 1
    version_minor := 0
    index_offset := 512
    index_length := 100
    index_iv := List.replicate 32 1
    master_salt := List.replicate 32 2
    file_hash := List.replicate 64 3
    created_timestamp := 5
    total_files := 2
    total_data_size := 1000
    compression_algo := 1
    encryption_algo := 1
    metadata := [101, 102]
    reserved := List.replicate 200 0 }

/-! ## Model of `verify_password_strength` (src/core/encryption_utils.py) -/

/-- The lowercase-letter search of the source (ASCII class a-z). -/
def has_lower (p : String) : Bool :=
  p.data.any fun c => decide ('a' ≤ c) && decide (c ≤ 'z')

/-- The uppercase-letter search of the source (ASCII class A-Z). -/
def has_upper (p : String) : Bool :=
  p.data.any fun c => decide ('A' ≤ c) && decide (c ≤ 'Z')

/-- The codepoint ranges of the Unicode decimal-digit category Nd
(Unicode 14.0.0, the table CPython re consults): the character class matched
by the digit escape of the source pattern on a str. -/
def unicodeDecimalDigitRanges : List (Nat × Nat) :=
  [(48, 57), (1632, 1641), (1776, 1785), (1984, 1993), (2406, 2415), (2534, 2543), (2662, 2671),
   (2790, 2799), (2918, 2927), (3046, 3055), (3174, 3183), (3302, 3311), (3430, 3439),
   (3558, 3567), (3664, 3673), (3792, 3801), (3872, 3881), (4160, 4169), (4240, 4249),
   (6112, 6121), (6160, 6169), (6470, 6479), (6608, 6617), (6784, 6793), (6800, 6809),
   (6992, 7001), (7088, 7097), (7232, 7241), (7248, 7257), (42528, 42537), (43216, 43225),
   (43264, 43273), (43472, 43481), (43504, 43513), (43600, 43609), (44016, 44025), (65296, 65305),
   (66720, 66729), (68912, 68921), (69734, 69743), (69872, 69881), (69942, 69951), (70096, 70105),
   (70384, 70393), (70736, 70745), (70864, 70873), (71248, 71257), (71360, 71369), (71472, 71481),
   (71904, 71913), (72016, 72025), (72784, 72793), (73040, 73049), (73120, 73129), (92768, 92777),
   (92864, 92873), (93008, 93017), (120782, 120831), (123200, 123209), (123632, 123641),
   (125264, 125273), (130032, 130041)]

/-- Membership in Unicode category Nd. -/
def isDecimalDigit (c : Char) : Bool :=
  unicodeDecimalDigitRanges.any fun r => decide (r.1 ≤ c.toNat) && decide (c.toNat ≤ r.2)

/-- The digit search of the source: the digit escape in a str pattern matches
every Unicode decimal digit (category Nd), not only ASCII 0-9. -/
def has_digit (p : String) : Bool :=
  p.data.any isDecimalDigit

/-- The special-character class of the source.  Its absence is only a warning,
never a failure. -/
def special_chars : List Char :=
  ['!', '@', '#', '$', '%', '^', '&', '*', '(', ')', ',', '.', '?',
   Char.ofNat 34, Char.ofNat 123, Char.ofNat 125, '|', '<', '>']

/-- The weak-password denylist of the source. -/
def weak_passwords : List String :=
  ["password", "12345678", "qwerty", "abc123", "password123", "admin123", "88888888"]

/-- Model of the Python string lower method (ASCII case folding).  This is
extensionally adequate for the denylist membership test: no non-ASCII
character case-folds to any character of the all-ASCII denylist entries
(the one non-ASCII-to-ASCII lowering, the Kelvin sign to k, does not occur
in them), so both sides of the comparison agree with the source. -/
def pyLower (p : String) : String := String.mk (p.data.map Char.toLower)

/-- Model of `verify_password_strength`, returning `(is_valid, error_msg)`.  Length
below 12 and a missing special character only log warnings and do not affect
the result. -/
def verify_password_strength (p : String) : Bool × String :=
  if p.length < 8 then (false, "密码长度至少 8 个字符")
  else if !has_lower p then (false, "密码必须包含小写字母")
  else if !has_upper p then (false, "密码必须包含大写字母")
  else if !has_digit p then (false, "密码必须包含数字")
  else if weak_passwords.contains (pyLower p) then (false, "密码过于简单，请使用更强的密码")
  else (true, "")

/-! ## Model of `src/core/offline_credential.py`

Idealisations (standard symbolic-crypto modelling):
* SHA-256 is collision-free: hex digests are an injective constructor.
* PBKDF2 key derivation is injective in `(password, fingerprint)`.
* AES-256-GCM is an ideal AEAD: decryption succeeds exactly under the sealing
  key, IV and associated data; no forgery is possible.  `corruptBlob` stands
  for any stored bytes that are not a seal produced by `save_credential`
  (a tampered or truncated file, or one whose decrypted contents fail to
  parse).
* ISO-format timestamps are modelled as `Nat` (their chronological order);
  `cache_days` is measured in the same unit.
* The JSON round-trip `json.loads(json.dumps(asdict(c)))` of a credential is
  the identity, so the sealed payload is the credential itself.
-/

/-- A SHA-256 hex digest (symbolic). -/
inductive HashHex where
  | sha256 (input : String)
deriving Repr, DecidableEq

/-- A PBKDF2-derived vault key:
`derive_master_key(password, sha256(password + device_fp), iterations=10000)`. -/
inductive VaultKey where
  | derived (password : String) (fingerprint : String)
deriving Repr, DecidableEq

/-- The `OfflineCredential` dataclass.  `user_info` is an opaque payload. -/
structure OfflineCredential where
  username : String
  password_hash : HashHex
  token : String
  device_fingerprint : String
  created_at : Nat
  expires_at : Nat
  user_info : String
deriving Repr, DecidableEq

/-- An AEAD-sealed vault blob (symbolic, see above). -/
inductive VaultCiphertext where
  | sealedCred (key : VaultKey) (iv : Nat) (aad : String) (plain : OfflineCredential)
  | corruptBlob (junk : Nat)
deriving Repr, DecidableEq

/-- Model of `decrypt_data` as used by the vault: succeeds exactly under the sealing
key, IV and associated data (otherwise `InvalidTag` is raised, modelled as
`none`). -/
def vaultDecrypt (c : VaultCiphertext) (key : VaultKey) (iv : Nat) (aad : String) :
    Option OfflineCredential :=
  match c with
  | .sealedCred k i a p => if k = key ∧ i = iv ∧ a = aad then some p else none
  | .corruptBlob _ => none

/-- The on-disk vault file: `IV(12) || ciphertext`. -/
structure VaultFile where
  iv : Nat
  body : VaultCiphertext
deriving Repr, DecidableEq

/-- Model of the key derivation of `OfflineCredentialManager`. -/
def derive_encryption_key (password fp : String) : VaultKey :=
  .derived password fp

/-- Model of `OfflineCredentialManager.save_credential`: builds the credential
(`password_hash = sha256(password)`, `expires_at = now + cache_days`, current
device fingerprint), seals it under the derived key with
`associated_data = username`, and writes `IV || ciphertext`.  Returns the
credential together with the written file. -/
def save_credential (fp : String) (now cache_days : Nat) (iv : Nat)
    (username password token user_info : String) : OfflineCredential × VaultFile :=
  let credential : OfflineCredential :=
    { username := username
      password_hash := .sha256 password
      token := token
      device_fingerprint := fp
      created_at := now
      expires_at := now + cache_days
      user_info := user_info }
  (credential,
    { iv := iv
      body := .sealedCred (derive_encryption_key password fp) iv username credential })

/-- Model of `OfflineCredentialManager.load_credential`: reads the file, decrypts with
the derived key and `aad = username`, then checks password hash, device
fingerprint and expiry.  Returns the loaded credential (or `none`) together
with the state of the vault file after the call (`none` when deleted). -/
def load_credential (fp : String) (now : Nat) (username password : String)
    (file : Option VaultFile) : Option OfflineCredential × Option VaultFile :=
  match file with
  | none => (none, none)
  | some f =>
    match vaultDecrypt f.body (derive_encryption_key password fp) f.iv username with
    | none => (none, some f)
    | some credential =>
      if credential.password_hash ≠ HashHex.sha256 password then (none, some f)
      else if credential.device_fingerprint ≠ fp then (none, some f)
      else if now > credential.expires_at then (none, none)
      else (some credential, some f)

/-- A concrete saved vault credential/file pair (fingerprint `fpA`, saved at
time 100 with a 7-unit cache lifetime). -/
def vaultSave0 : OfflineCredential × VaultFile :=
  save_credential "fpA" 100 7 42 "u" "p" "tok" "info"

/-- A vault file holding bytes that are not a valid seal. -/
def corruptVaultFile : VaultFile := { iv := 0, body := .corruptBlob 0 }

/-- A concrete saved credential that is expired by time 200. -/
def expiredVault0 : OfflineCredential × VaultFile :=
  save_credential "fpC" 10 5 1 "u" "p" "tok" "info"

/-! ## Model of `src/core/hybrid_security.py`

The ambient behaviour of the identity client is passed in explicitly: whether
`check_network()` reports the server reachable, and what `login` does
(a response dict, an `AuthenticationError`, or a `NetworkError`).  The vault
content relevant to the call is passed as the `Option OfflineCredential`
that `load_credential` would return.  `save_credential` catches all its own
errors and never raises, so its file-system effect is not part of this state.
`derive_master_key` raises `ValueError` exactly when its password is empty,
which is the one way `_derive_distribution_key` can fail. -/

/-- The mutable authentication state of `HybridSecurityManager`. -/
structure HybridState where
  current_user : Option String := none
  current_token : Option String := none
  is_online_mode : Bool := false
  key_initialized : Bool := false
deriving Repr, DecidableEq

/-- What `auth_client.login` does, as observed by `_online_authenticate`. -/
inductive LoginOutcome where
  | response (success : Bool) (token : Option String) (user : Option String)
  | authError
  | networkError
deriving Repr, DecidableEq

/-- How a call to `authenticate` terminates: a returned boolean, or an
uncaught exception. -/
inductive AuthOutcome where
  | returned (b : Bool)
  | raised
deriving Repr, DecidableEq

/-- Model of `_derive_distribution_key`: derives and stores the distribution key in the
key manager; fails (uncaught `ValueError` from `derive_master_key`) exactly
when the configured distribution password is empty. -/
def derive_distribution_key (dist_password : String) (s : HybridState) :
    Option HybridState :=
  if dist_password = "" then none else some { s with key_initialized := true }

/-- Model of `_offline_authenticate`: loads the cached credential (`cred` is the result
of `load_credential`), re-checks expiry, stores token and user, then derives
the distribution key; any exception is caught and turns into `False`. -/
def offline_authenticate (dist_password : String) (now : Nat)
    (cred : Option OfflineCredential) (s : HybridState) : Bool × HybridState :=
  match cred with
  | none => (false, s)
  | some credential =>
    if now > credential.expires_at then (false, s)
    else
      let s1 := { s with current_token := some credential.token
                         current_user := some credential.user_info
                         is_online_mode := false }
      match derive_distribution_key dist_password s1 with
      | none => (false, s1)
      | some s2 => (true, s2)

/-- Model of `_online_authenticate`: on a successful login response stores token, user
and online mode, caches the credential, and derives the distribution key
(whose `ValueError` is NOT caught here); on `AuthenticationError` returns
`False`; on `NetworkError` falls back to `_offline_authenticate`; on a
response without `success` returns `False`. -/
def online_authenticate (dist_password : String) (now : Nat) (login : LoginOutcome)
    (cred : Option OfflineCredential) (s : HybridState) : AuthOutcome × HybridState :=
  match login with
  | .response success token user =>
    if success then
      let s1 := { s with current_token := token
                         current_user := user
                         is_online_mode := true }
      match derive_distribution_key dist_password s1 with
      | none => (.raised, s1)
      | some s2 => (.returned true, s2)
    else (.returned false, s)
  | .authError => (.returned false, s)
  | .networkError =>
    let r := offline_authenticate dist_password now cred s
    (.returned r.1, r.2)

/-- Model of `authenticate`: online when `check_network()` succeeds, otherwise
offline. -/
def hybrid_authenticate (dist_password : String) (now : Nat) (network_up : Bool)
    (login : LoginOutcome) (cred : Option OfflineCredential) (s : HybridState) :
    AuthOutcome × HybridState :=
  if network_up then online_authenticate dist_password now login cred s
  else
    let r := offline_authenticate dist_password now cred s
    (.returned r.1, r.2)

/-- Model of `is_authenticated`: the current user is not None. -/
def is_authenticated (s : HybridState) : Bool := s.current_user.isSome

/-- Model of `get_distribution_password`: raises (`none`) unless authenticated. -/
def get_distribution_password (dist_password : String) (s : HybridState) :
    Option String :=
  if is_authenticated s then some dist_password else none

/-- A concrete cached credential for the C4 witness. -/
def cachedCred0 : OfflineCredential :=
  { username := "u"
    password_hash := .sha256 "p"
    token := "tok"
    device_fingerprint := "fpA"
    created_at := 100
    expires_at := 107
    user_info := "info" }

/-- A manager state left over from an earlier successful authentication. -/
def authedState : HybridState :=
  { current_user := some "alice"
    current_token := some "tok"
    is_online_mode := true
    key_initialized := true }

/-! ## Model of `AIPKGBuilder.create_package` file-system effects (claim C3)

The builder touches exactly two paths: the sibling temporary file
`output_path + .tmp` and `output_path` itself.  The model tracks what each
path holds; a failure can be injected at each fallible step, in program
order.  The `try`/`except` handler removes the temporary file (when it
exists) and re-raises; the password and source checks run before the `try`
block and touch nothing. -/

/-- What a path can hold in the builder model. -/
inductive OutContent where
  | previous (n : Nat)
  | incompleteData
  | package
deriving Repr, DecidableEq

/-- The two paths the builder touches. -/
structure BuildFS where
  tmp : Option OutContent
  out : Option OutContent
deriving Repr, DecidableEq

/-- Where a failure is injected, in the order the steps run:
reading/compressing/encrypting the inputs and building the index
(`processing`), writing and patching the temporary file (`writing`),
`os.remove(output_path)` (`removingOld`), `os.rename` (`renaming`), and the
final progress callback / `os.path.getsize` statistics (`reporting`). -/
inductive BuildFail where
  | noFail
  | processing
  | writing
  | removingOld
  | renaming
  | reporting
deriving Repr, DecidableEq

/-- The `except` handler: `if os.path.exists(temp_output): os.remove(...)`. -/
def cleanupTmp (fs : BuildFS) : BuildFS := { fs with tmp := none }

inductive BuildResult where
  | ok
  | error
deriving Repr, DecidableEq

/-- Model of `create_package`, reduced to its file-system effects and failure
behaviour. -/
def create_package_fs (weak_password missing_source : Bool) (fail : BuildFail)
    (fs : BuildFS) : BuildResult × BuildFS :=
  if weak_password then (.error, fs)
  else if missing_source then (.error, fs)
  else if fail = .processing then (.error, cleanupTmp fs)
  else if fail = .writing then (.error, cleanupTmp { fs with tmp := some .incompleteData })
  else
    let fs1 := { fs with tmp := some .package }
    if fail = .removingOld then (.error, cleanupTmp fs1)
    else
      let fs2 := { fs1 with out := none }
      if fail = .renaming then (.error, cleanupTmp fs2)
      else
        let fs3 := { fs2 with tmp := none, out := some .package }
        if fail = .reporting then (.error, cleanupTmp fs3)
        else (.ok, fs3)

/-! ## Model of `AIPKGBuilder._scan_files` identifiers (claim C8)

Directories are passed in as values (only subdirectories reach the category
level, mirroring the `is_dir()` filters); the MD5 prefix
`hashlib.md5(file_name.encode()).hexdigest()[:8]` is an arbitrary function of
the file name, which is all the duplicate-identifier argument needs.  The
final `sorted(...)` of `_scan_files` only permutes the list and cannot
affect whether identifiers are pairwise distinct, so it is omitted. -/

structure CategoryDir where
  name : String
  pdfs : List String
deriving Repr, DecidableEq

structure AirportDir where
  name : String
  categories : List CategoryDir
deriving Repr, DecidableEq

/-- Model of the Python string strip method on the character list (ASCII whitespace). -/
def stripWs (l : List Char) : List Char :=
  ((l.dropWhile Char.isWhitespace).reverse.dropWhile Char.isWhitespace).reverse

/-- Model of `_normalize_category_code`: strip, spaces to underscores, uppercase. -/
def normalize_category_code (s : String) : String :=
  String.mk (((stripWs s.data).map fun c => if c = ' ' then '_' else c).map Char.toUpper)

/-- Model of the Python string lower method for the identifier parts (all ASCII here). -/
def pyLowerStr (s : String) : String := String.mk (s.data.map Char.toLower)

/-- The identifier built by `_parse_chart_filename`:
`f"{airport.lower()}_{category.lower()}_{md5(file_name)[:8]}"`. -/
def chart_file_id (md5hex8 : String → String) (airport category file_name : String) :
    String :=
  pyLowerStr airport ++ "_" ++ pyLowerStr category ++ "_" ++ md5hex8 file_name

/-- Model of `_scan_files`: visit airport directories whose name has exactly 4
characters, then each category directory, then each `*.pdf` file, producing
the identifier of each entry. -/
def scan_ids (md5hex8 : String → String) (terminal : List AirportDir) : List String :=
  (terminal.filter (fun a => a.name.length == 4)).flatMap fun a =>
    a.categories.flatMap fun c =>
      c.pdfs.map fun f => chart_file_id md5hex8 a.name (normalize_category_code c.name) f

/-- A source tree with two airport directories whose names differ only by
case, each holding the same category and file name. -/
def duplicateTree : List AirportDir :=
  [ { name := "ZBAA", categories := [ { name := "SID", pdfs := ["x.pdf"] } ] },
    { name := "zbaa", categories := [ { name := "SID", pdfs := ["x.pdf"] } ] } ]

/-! ## Model of the index JSON size and the two-pass reseal (claim C1)

`PackageIndex.to_json` is `json.dumps(data, ensure_ascii=False, indent=2)`,
then UTF-8 encoding, then AES-256-GCM (ciphertext length = plaintext
length + 16).  Whether the header `index_length` matches the sealed index
actually written depends only on BYTE LENGTHS, so the model computes the
UTF-8 byte length of the serialized document, mirroring the exact layout of
`json.dumps` with `indent=2` (the default separators `,` and `: ` under an
indent) and the exact key order of `create_package`, `_extract_airports`,
`_get_standard_categories` and `FileEntry.to_dict`:

* a string renders as `"..."` (none of the strings involved needs JSON
  escaping): 2 + its UTF-8 length;
* `None` renders as `null`: 4;
* an int renders as its decimal digits;
* the float `compression_ratio` renders as `repr` of the Python float and is
  identical in both passes; its rendered length is a parameter;
* a non-empty object at nesting depth `k` renders as an opening brace and
  newline, items of the form `<2(k+1) spaces>"key": <value>` joined by a
  comma and newline, then a newline, `2k` spaces and the closing brace;
  a non-empty array likewise without the keys. -/

/-- UTF-8 byte length of a string (`len` of the UTF-8 encoding). -/
def utf8Len (s : String) : Nat :=
  s.data.foldl (fun n c => n + c.utf8Size) 0

/-- Number of decimal digits of `n` as printed by `str(n)` / `json.dumps`. -/
def digitsLenAux : Nat → Nat → Nat
  | 0, _ => 1
  | fuel + 1, n => if n < 10 then 1 else 1 + digitsLenAux fuel (n / 10)

def digitsLen (n : Nat) : Nat := digitsLenAux n n

/-- Rendered length of a JSON string literal (no escaping needed). -/
def jstrLen (s : String) : Nat := 2 + utf8Len s

/-- Rendered length of `null`. -/
def jnullLen : Nat := 4

/-- Rendered length of an optional string field. -/
def joptStrLen : Option String → Nat
  | none => jnullLen
  | some s => jstrLen s

/-- One array item at nesting depth `k`: its indentation plus its value. -/
def arrItem (k : Nat) (vlen : Nat) : Nat := 2 * k + vlen

/-- One object item at nesting depth `k`: indentation, quoted key, `: `,
value. -/
def objItem (k : Nat) (key : String) (vlen : Nat) : Nat :=
  2 * k + 2 + utf8Len key + 2 + vlen

/-- Rendered length of a non-empty object or array block at depth `k` whose
items (indentation included) have the given lengths; `[]`/`{}` when empty. -/
def blockLen (k : Nat) : List Nat → Nat
  | [] => 2
  | i :: rest => 2 + i + rest.foldl (fun acc j => acc + 2 + j) 0 + 2 + 2 * k

/-- The builder `FileEntry` fields serialized by `FileEntry.to_dict`. -/
structure BFileEntry where
  id : String
  airport : String
  category : String
  file_name : String
  title : String
  chart_number : Option String
  runway : Option String
  procedure : Option String
  offset : Nat
  compressed_size : Nat
  original_size : Nat
  iv : String
  file_hash : String
  page_count : Nat
  created_at : String
deriving Repr, DecidableEq

/-- Rendered length of one `FileEntry.to_dict` object inside the `files`
array (depth 2, keys at depth 3), in the exact key order of the source. -/
def fileEntryJsonLen (e : BFileEntry) : Nat :=
  blockLen 2 [
    objItem 3 "id" (jstrLen e.id),
    objItem 3 "airport" (jstrLen e.airport),
    objItem 3 "category" (jstrLen e.category),
    objItem 3 "file_name" (jstrLen e.file_name),
    objItem 3 "title" (jstrLen e.title),
    objItem 3 "chart_number" (joptStrLen e.chart_number),
    objItem 3 "runway" (joptStrLen e.runway),
    objItem 3 "procedure" (joptStrLen e.procedure),
    objItem 3 "offset" (digitsLen e.offset),
    objItem 3 "compressed_size" (digitsLen e.compressed_size),
    objItem 3 "original_size" (digitsLen e.original_size),
    objItem 3 "iv" (jstrLen e.iv),
    objItem 3 "file_hash" (jstrLen e.file_hash),
    objItem 3 "page_count" (digitsLen e.page_count),
    objItem 3 "created_at" (jstrLen e.created_at) ]

/-- Rendered length of one `_extract_airports` object (`name_cn`/`name_en`
are `None`). -/
def airportJsonLen (icao : String) (file_count : Nat) : Nat :=
  blockLen 2 [
    objItem 3 "icao" (jstrLen icao),
    objItem 3 "name_cn" jnullLen,
    objItem 3 "name_en" jnullLen,
    objItem 3 "file_count" (digitsLen file_count) ]

/-- Rendered length of one `_get_standard_categories` object. -/
def categoryJsonLen (code cn en : String) : Nat :=
  blockLen 2 [
    objItem 3 "code" (jstrLen code),
    objItem 3 "name_cn" (jstrLen cn),
    objItem 3 "name_en" (jstrLen en) ]

/-- The eleven standard categories of `_get_standard_categories`. -/
def standardCategoryLens : List Nat :=
  [ categoryJsonLen "ADC" "机场图" "Aerodrome Chart",
    categoryJsonLen "AOC" "航空器运行图" "Aircraft Operating Chart",
    categoryJsonLen "APDC" "机场停机位图" "Airport Diagram",
    categoryJsonLen "GMC" "地面移动图" "Ground Movement Chart",
    categoryJsonLen "PATC" "精密进近地形图" "Precision Approach Terrain Chart",
    categoryJsonLen "SID" "标准仪表离场" "Standard Instrument Departure",
    categoryJsonLen "STAR" "标准终端进场" "Standard Terminal Arrival Route",
    categoryJsonLen "IAC" "仪表进近图" "Instrument Approach Chart",
    categoryJsonLen "FDA" "最后下降区图" "Final Descent Area Chart",
    categoryJsonLen "DATABASE_CODING_TABLE" "数据库编码表" "Database Coding Table",
    categoryJsonLen "WAYPOINT_LIST" "航路点列表" "Waypoint List" ]

/-- Rendered length of the `package_info` object built in `create_package`,
in its key order.  `ratioRenderLen` is the rendered length of the
`compression_ratio` float (identical in both passes). -/
def packageInfoJsonLen (eaip_version created_at : String)
    (airports_count charts_count total_size ratioRenderLen : Nat) : Nat :=
  blockLen 1 [
    objItem 2 "eaip_version" (jstrLen eaip_version),
    objItem 2 "effective_date" jnullLen,
    objItem 2 "expiry_date" jnullLen,
    objItem 2 "created_at" (jstrLen created_at),
    objItem 2 "airports_count" (digitsLen airports_count),
    objItem 2 "charts_count" (digitsLen charts_count),
    objItem 2 "total_size" (digitsLen total_size),
    objItem 2 "compression_ratio" ratioRenderLen ]

/-- UTF-8 byte length of `PackageIndex.to_json` for the document
`{ package_info, airports, categories, files }`. -/
def indexJsonLen (pkgInfoLen : Nat) (airportLens categoryLens : List Nat)
    (files : List BFileEntry) : Nat :=
  blockLen 0 [
    objItem 1 "package_info" pkgInfoLen,
    objItem 1 "airports" (blockLen 1 (airportLens.map (arrItem 2))),
    objItem 1 "categories" (blockLen 1 (categoryLens.map (arrItem 2))),
    objItem 1 "files" (blockLen 1 (files.map fun e => arrItem 2 (fileEntryJsonLen e))) ]

/-- The two index seals of `create_package` (steps 3, 4 and the reseal):
the first pass seals the index with provisional offsets and sets
`index_length = len(encrypted_index)`; the fix-up adds
`data_start_offset = HEADER_SIZE + index_length` to every entry offset and
re-encrypts, and the second ciphertext is what is written at offset 512 —
while the header keeps the stale `index_length`.  Returns
`(header index_length, byte length of the sealed index actually written)`. -/
def create_package_index_lengths (pkgInfoLen : Nat)
    (airportLens categoryLens : List Nat) (entries : List BFileEntry) : Nat × Nat :=
  let index_json_len1 := indexJsonLen pkgInfoLen airportLens categoryLens entries
  let index_length := index_json_len1 + 16
  let index_offset := HEADER_SIZE
  let data_start_offset := index_offset + index_length
  let entries2 := entries.map fun e => { e with offset := e.offset + data_start_offset }
  let index_json_len2 := indexJsonLen pkgInfoLen airportLens categoryLens entries2
  (index_length, index_json_len2 + 16)

/-- The single entry of the concrete one-file scenario: source file
`Terminal/ZBAA/SID/x.pdf` of 10 bytes, built with the compression argument `none`
(so `compressed_size = original_size` and the compression ratio is the float
`1.0`, rendered on 3 bytes).  The IV is the base64 of 12 bytes (16 chars),
the file hash 64 hex chars; their values do not matter for lengths. -/
def scenarioEntry : BFileEntry :=
  { id := "zbaa_sid_0123abcd"
    airport := "ZBAA"
    category := "SID"
    file_name := "x.pdf"
    title := "x"
    chart_number := none
    runway := none
    procedure := none
    offset := 0
    compressed_size := 10
    original_size := 10
    iv := "AAAAAAAAAAAAAAAA"
    file_hash := "aaaaaaaaaaaaaaaaaaaaaaaaaaaaaaaaaaaaaaaaaaaaaaaaaaaaaaaaaaaaaaaa"
    page_count := 0
    created_at := "2025-01-01T00:00:00" }

/-- The header `index_length` and the written sealed-index length of the
concrete one-file build. -/
def scenarioIndexLengths : Nat × Nat :=
  create_package_index_lengths
    (packageInfoJsonLen "EAIP2025-07.V1.0" "2025-01-01T00:00:00" 1 1 10 3)
    [airportJsonLen "ZBAA" 1] standardCategoryLens [scenarioEntry]

/-! ## Theorems -/

theorem packLE_length (w n : Nat) : (packLE w n).length = w := by
  induction w generalizing n with
  | zero => rfl
  | succ w ih => simp [packLE, ih]

theorem packBytes_length (w : Nat) (b : List Nat) : (packBytes w b).length = w := by
  simp [packBytes]
  omega

theorem packBytes_eq_self (w : Nat) (b : List Nat) (h : b.length = w) :
    packBytes w b = b := by
  simp [packBytes, h, List.take_of_length_le (le_of_eq h)]

theorem unpackLE_packLE (w n : Nat) (h : n < 256 ^ w) : unpackLE (packLE w n) = n := by
  induction w generalizing n with
  | zero =>
    simp [Nat.pow_zero] at h
    simp [packLE, unpackLE, h]
  | succ w ih =>
    have hlt : n / 256 < 256 ^ w := by
      rw [Nat.div_lt_iff_lt_mul (by norm_num)]
      calc n < 256 ^ (w + 1) := h
      _ = 256 ^ w * 256 := by ring
    simp only [packLE, unpackLE, List.foldr_cons]
    have : unpackLE (packLE w (n / 256)) = n / 256 := ih _ hlt
    simp only [unpackLE] at this
    rw [this]
    omega

theorem rstripZeros_eq_self_append (md : List Nat) (k : Nat)
    (h : md.getLast? ≠ some 0) :
    rstripZeros (md ++ List.replicate k 0) = md := by
  unfold rstripZeros
  rw [List.reverse_append, List.reverse_replicate]
  have hdropRep : ∀ (j : Nat) (r : List Nat),
      (List.replicate j 0 ++ r).dropWhile (fun b => b == 0) =
        r.dropWhile (fun b => b == 0) := by
    intro j
    induction j with
    | zero => intro r; simp
    | succ j ih =>
      intro r
      rw [List.replicate_succ, List.cons_append, List.dropWhile_cons_of_pos (by simp)]
      exact ih r
  rw [hdropRep]
  cases hmd : md.reverse with
  | nil =>
    have : md = [] := by simpa using congrArg List.reverse hmd
    simp [this]
  | cons a as =>
    have hlast : md.getLast? = some a := by
      rw [List.getLast?_eq_head?_reverse, hmd]
      rfl
    have ha : a ≠ 0 := by
      intro h0
      exact h (by rw [hlast, h0])
    rw [List.dropWhile_cons_of_neg (by simpa using ha)]
    rw [← hmd, List.reverse_reverse]

theorem peelChunk (l pre rest : List Nat) (n w : Nat) (hl : l.drop n = pre ++ rest)
    (hw : pre.length = w) : (l.drop n).take w = pre ∧ l.drop (n + w) = rest := by
  refine ⟨by rw [hl]; exact List.take_left' hw, ?_⟩
  rw [← List.drop_drop, hl, List.drop_left' hw]

/-- Claim C2 (amended): header encode/decode round-trips for every header whose
byte fields have the exact field widths, whose magic is the `AIPK` magic, whose
metadata has no trailing NUL byte, and whose timestamp is nonzero (a zero
timestamp is rewritten by `__post_init__` on decode). -/
theorem c2_header_roundtrip (now : Nat) (h : AIPKGHeader) (bs : List Nat)
    (hmagic : h.magic = MAGIC_NUMBER)
    (hiv : h.index_iv.length = 32)
    (hsalt : h.master_salt.length = 32)
    (hhash : h.file_hash.length = 64)
    (hres : h.reserved.length = 200)
    (hmeta : h.metadata.length ≤ 128)
    (hmetaLast : h.metadata.getLast? ≠ some 0)
    (hts : h.created_timestamp ≠ 0)
    (henc : h.to_bytes = some bs) :
    AIPKGHeader.from_bytes now bs = .ok h := by
  unfold AIPKGHeader.to_bytes at henc
  split at henc
  case isFalse => exact absurd henc (by simp)
  case isTrue hrange =>
    obtain ⟨hr1, hr2, hr3, hr4, hr5, hr6, hr7, hr8, hr9⟩ := hrange
    injection henc with hbs
    replace hbs := hbs.symm
    simp only [List.append_assoc] at hbs
    have h0 : bs.drop 0 = packBytes 4 h.magic ++
        (packLE 2 h.version_major ++ (packLE 2 h.version_minor ++
        (packLE 8 h.index_offset ++ (packLE 8 h.index_length ++
        (packBytes 32 h.index_iv ++ (packBytes 32 h.master_salt ++
        (packBytes 64 h.file_hash ++ (packLE 8 h.created_timestamp ++
        (packLE 8 h.total_files ++ (packLE 8 h.total_data_size ++
        (packLE 4 h.compression_algo ++ (packLE 4 h.encryption_algo ++
        (packBytes 128 h.metadata ++ packBytes 200 h.reserved))))))))))))) := by
      rw [List.drop_zero, hbs]
    obtain ⟨g0, h1⟩ := peelChunk bs _ _ 0 4 h0 (packBytes_length _ _)
    obtain ⟨g1, h2⟩ := peelChunk bs _ _ 4 2 h1 (packLE_length _ _)
    obtain ⟨g2, h3⟩ := peelChunk bs _ _ 6 2 h2 (packLE_length _ _)
    obtain ⟨g3, h4⟩ := peelChunk bs _ _ 8 8 h3 (packLE_length _ _)
    obtain ⟨g4, h5⟩ := peelChunk bs _ _ 16 8 h4 (packLE_length _ _)
    obtain ⟨g5, h6⟩ := peelChunk bs _ _ 24 32 h5 (packBytes_length _ _)
    obtain ⟨g6, h7⟩ := peelChunk bs _ _ 56 32 h6 (packBytes_length _ _)
    obtain ⟨g7, h8⟩ := peelChunk bs _ _ 88 64 h7 (packBytes_length _ _)
    obtain ⟨g8, h9⟩ := peelChunk bs _ _ 152 8 h8 (packLE_length _ _)
    obtain ⟨g9, h10⟩ := peelChunk bs _ _ 160 8 h9 (packLE_length _ _)
    obtain ⟨g10, h11⟩ := peelChunk bs _ _ 168 8 h10 (packLE_length _ _)
    obtain ⟨g11, h12⟩ := peelChunk bs _ _ 176 4 h11 (packLE_length _ _)
    obtain ⟨g12, h13⟩ := peelChunk bs _ _ 180 4 h12 (packLE_length _ _)
    obtain ⟨g13, h14⟩ := peelChunk bs _ _ 184 128 h13 (packBytes_length _ _)
    have g14 : bs.drop 312 = packBytes 200 h.reserved := h14
    have hlen : bs.length = 512 := by
      rw [hbs]
      simp [packBytes_length, packLE_length]
    have hm4 : bs.take 4 = MAGIC_NUMBER := by
      have := g0
      rw [List.drop_zero] at this
      rw [this, packBytes_eq_self 4 h.magic (by rw [hmagic]; rfl), hmagic]
    have g6' : (bs.drop 56).take 32 = packBytes 32 h.master_salt := g6
    have g7' : (bs.drop 88).take 64 = packBytes 64 h.file_hash := g7
    have g8' : (bs.drop 152).take 8 = packLE 8 h.created_timestamp := g8
    have g9' : (bs.drop 160).take 8 = packLE 8 h.total_files := g9
    have g10' : (bs.drop 168).take 8 = packLE 8 h.total_data_size := g10
    have g11' : (bs.drop 176).take 4 = packLE 4 h.compression_algo := g11
    have g12' : (bs.drop 180).take 4 = packLE 4 h.encryption_algo := g12
    have g13' : (bs.drop 184).take 128 = packBytes 128 h.metadata := g13
    have g14' : (bs.drop 312).take 200 = packBytes 200 h.reserved := by
      rw [g14, packBytes_eq_self 200 _ hres, List.take_of_length_le (le_of_eq hres)]
    have hmetaEq : rstripZeros (packBytes 128 h.metadata) = h.metadata := by
      unfold packBytes
      rw [List.take_of_length_le hmeta]
      exact rstripZeros_eq_self_append _ _ hmetaLast
    unfold AIPKGHeader.from_bytes
    rw [if_neg (by simp [hlen, HEADER_SIZE])]
    simp only [hm4, hlen]
    rw [if_neg (by simp [MAGIC_NUMBER])]
    simp only [g1, g2, g3, g4, g5, g6', g7', g8', g9', g10', g11', g12', g13', g14']
    rw [unpackLE_packLE 2 _ hr1, unpackLE_packLE 2 _ hr2,
      unpackLE_packLE 8 _ hr3, unpackLE_packLE 8 _ hr4,
      unpackLE_packLE 8 _ hr5, unpackLE_packLE 8 _ hr6,
      unpackLE_packLE 8 _ hr7, unpackLE_packLE 4 _ hr8,
      unpackLE_packLE 4 _ hr9,
      packBytes_eq_self 32 _ hiv, packBytes_eq_self 32 _ hsalt,
      packBytes_eq_self 64 _ hhash, packBytes_eq_self 200 _ hres, hmetaEq]
    rw [← hmagic]
    have hpost : postInit now h = h := by
      unfold postInit
      simp [hts, hiv, hsalt, hhash, hres]
    show Except.ok (postInit now h) = Except.ok h
    rw [hpost]

/-- Claim C2 (counterexample): a header with valid field widths whose magic is
the 4-byte string `XXXX` does not round-trip — `from_bytes` rejects the
encoding (it is an error, not `.ok hdrBadMagic`), so the claim as stated
fails. -/
theorem c2_counterexample :
    hdrBadMagic.magic.length = 4 ∧ hdrBadMagic.index_iv.length = 32 ∧
    hdrBadMagic.master_salt.length = 32 ∧ hdrBadMagic.file_hash.length = 64 ∧
    hdrBadMagic.reserved.length = 200 ∧ hdrBadMagic.metadata.length ≤ 128 ∧
    (AIPKGHeader.from_bytes 0 (hdrBadMagic.to_bytes.getD [])).isOk = false := by
  decide

/-- Claim C2 (witness): the amended round-trip applied to a concrete header. -/
theorem c2_header_roundtrip_witness :
    AIPKGHeader.from_bytes 7 (hdrGood.to_bytes.getD []) = .ok hdrGood :=
  c2_header_roundtrip 7 hdrGood _ (by decide) (by decide) (by decide) (by decide)
    (by decide) (by decide) (by decide) (by decide) (by decide)

/-- Claim C9: `AIPKGHeader.from_bytes` succeeds exactly on 512-byte inputs whose
first four bytes are the `AIPK` magic; every other input is rejected with an
error (`ValueError` in the source), and no well-shaped input can make it
raise. -/
theorem c9_from_bytes_total (now : Nat) (data : List Nat) :
    (AIPKGHeader.from_bytes now data).isOk = true ↔
      data.length = HEADER_SIZE ∧ data.take 4 = MAGIC_NUMBER := by
  unfold AIPKGHeader.from_bytes
  by_cases h1 : data.length = HEADER_SIZE
  · by_cases h2 : data.take 4 = MAGIC_NUMBER
    · simp [h1, h2, Except.isOk, Except.toBool]
    · simp [h1, h2, Except.isOk, Except.toBool]
  · simp [h1, Except.isOk, Except.toBool]

/-- Claim C7: the password predicate accepts exactly the passwords of length
at least 8 containing a lowercase letter, an uppercase letter and a digit and
not on the denylist (after lowercasing); the listed concrete examples are
rejected and accepted as the spec states. -/
theorem c7_password_strength :
    (∀ p : String, (verify_password_strength p).1 = true ↔
      (8 ≤ p.length ∧ has_lower p = true ∧ has_upper p = true ∧ has_digit p = true ∧
        weak_passwords.contains (pyLower p) = false)) ∧
    (verify_password_strength "short").1 = false ∧
    (verify_password_strength "alllowercase1!").1 = false ∧
    (verify_password_strength "ALLUPPER1!").1 = false ∧
    (verify_password_strength "NoDigits!!").1 = false ∧
    (verify_password_strength "password").1 = false ∧
    (verify_password_strength "Aviation2025!").1 = true := by
  refine ⟨?_, by decide, by decide, by decide, by decide, by decide, by decide⟩
  intro p
  unfold verify_password_strength
  split_ifs with h1 h2 h3 h4 h5 <;> simp_all

/-- Claim C5: save/load round-trip of the offline vault, in the four cases of
the claim: same password and device before expiry returns the stored
credential unchanged; a different password returns none; a different device
fingerprint returns none; after expiry load returns none and deletes the
vault file. -/
theorem c5_vault_roundtrip (fp fp2 : String) (saveNow now cache_days iv : Nat)
    (u p p2 t info : String) (hp : p2 ≠ p) (hfp : fp2 ≠ fp) :
    (now ≤ saveNow + cache_days →
      load_credential fp now u p
          (some (save_credential fp saveNow cache_days iv u p t info).2) =
        ((some (save_credential fp saveNow cache_days iv u p t info).1),
          some (save_credential fp saveNow cache_days iv u p t info).2)) ∧
    load_credential fp now u p2
        (some (save_credential fp saveNow cache_days iv u p t info).2) =
      (none, some (save_credential fp saveNow cache_days iv u p t info).2) ∧
    load_credential fp2 now u p
        (some (save_credential fp saveNow cache_days iv u p t info).2) =
      (none, some (save_credential fp saveNow cache_days iv u p t info).2) ∧
    (saveNow + cache_days < now →
      load_credential fp now u p
          (some (save_credential fp saveNow cache_days iv u p t info).2) =
        (none, none)) := by
  refine ⟨?_, ?_, ?_, ?_⟩
  · intro hle
    simp [save_credential, load_credential, vaultDecrypt, derive_encryption_key]
    omega
  · simp [save_credential, load_credential, vaultDecrypt, derive_encryption_key, hp, Ne.symm hp]
  · simp [save_credential, load_credential, vaultDecrypt, derive_encryption_key, hfp, Ne.symm hfp]
  · intro hgt
    simp [save_credential, load_credential, vaultDecrypt, derive_encryption_key]
    omega

/-- Claim C5 (witness): the vault round-trip at concrete inputs. -/
theorem c5_vault_roundtrip_witness :
    load_credential "fpA" 105 "u" "p" (some vaultSave0.2) =
      (some vaultSave0.1, some vaultSave0.2) ∧
    load_credential "fpA" 105 "u" "q" (some vaultSave0.2) = (none, some vaultSave0.2) ∧
    load_credential "fpB" 105 "u" "p" (some vaultSave0.2) = (none, some vaultSave0.2) ∧
    load_credential "fpA" 200 "u" "p" (some vaultSave0.2) = (none, none) :=
  ⟨(c5_vault_roundtrip "fpA" "fpB" 100 105 7 42 "u" "p" "q" "tok" "info"
      (by decide) (by decide)).1 (by omega),
   (c5_vault_roundtrip "fpA" "fpB" 100 105 7 42 "u" "p" "q" "tok" "info"
      (by decide) (by decide)).2.1,
   (c5_vault_roundtrip "fpA" "fpB" 100 105 7 42 "u" "p" "q" "tok" "info"
      (by decide) (by decide)).2.2.1,
   (c5_vault_roundtrip "fpA" "fpB" 100 200 7 42 "u" "p" "q" "tok" "info"
      (by decide) (by decide)).2.2.2 (by omega)⟩

/-- Claim C6 (counterexample): on a corrupt vault file `load_credential`
returns `none` but does NOT delete the file — it is still present after the
call, contradicting the claim that corrupt files are silently deleted. -/
theorem c6_counterexample :
    (load_credential "fp" 0 "u" "p" (some corruptVaultFile)).1 = none ∧
    (load_credential "fp" 0 "u" "p" (some corruptVaultFile)).2 = some corruptVaultFile := by
  decide

/-- Claim C6 (amended): a corrupt vault file (AEAD tag mismatch or unparsable
contents) makes `load_credential` return `none` without raising and without
deleting the file; only an expired credential is deleted (also returning
`none`). -/
theorem c6_corrupt_kept_expired_deleted (fp : String) (now : Nat) (u p : String)
    (f : VaultFile) (cred : OfflineCredential) :
    (vaultDecrypt f.body (derive_encryption_key p fp) f.iv u = none →
      load_credential fp now u p (some f) = (none, some f)) ∧
    (vaultDecrypt f.body (derive_encryption_key p fp) f.iv u = some cred →
      cred.password_hash = HashHex.sha256 p →
      cred.device_fingerprint = fp →
      cred.expires_at < now →
      load_credential fp now u p (some f) = (none, none)) := by
  constructor
  · intro h
    simp [load_credential, h]
  · intro h h1 h2 h3
    simp [load_credential, h, h1, h2, h3]

/-- Claim C6 (witness): the amended statement at concrete inputs. -/
theorem c6_witness :
    load_credential "fp" 0 "u" "p" (some corruptVaultFile) = (none, some corruptVaultFile) ∧
    load_credential "fpC" 200 "u" "p" (some expiredVault0.2) = (none, none) :=
  ⟨(c6_corrupt_kept_expired_deleted "fp" 0 "u" "p" corruptVaultFile expiredVault0.1).1
      (by decide),
   (c6_corrupt_kept_expired_deleted "fpC" 200 "u" "p" expiredVault0.2 expiredVault0.1).2
      (by decide) (by decide) (by decide) (by decide)⟩

/-- Claim C4: starting unauthenticated, with the online path reached:
on `NetworkError` the manager falls back to offline authentication against the
cached vault credential — succeeding in offline mode when a usable credential
exists and failing when none does — while on `AuthError` it returns failure,
stays unauthenticated and never consults the vault (the result is the same for
every vault content). -/
theorem c4_fallback_policy (dist_password : String) (now : Nat)
    (cred : Option OfflineCredential) (s : HybridState)
    (hu : s.current_user = none) (hdp : dist_password ≠ "") :
    (∀ c, cred = some c → now ≤ c.expires_at →
      online_authenticate dist_password now .networkError cred s =
        (.returned true,
          { s with current_token := some c.token
                   current_user := some c.user_info
                   is_online_mode := false
                   key_initialized := true })) ∧
    (cred = none →
      online_authenticate dist_password now .networkError cred s = (.returned false, s)) ∧
    (∀ cred2, online_authenticate dist_password now .authError cred2 s = (.returned false, s)) ∧
    is_authenticated s = false := by
  refine ⟨?_, ?_, ?_, ?_⟩
  · intro c hc hle
    subst hc
    have hexp : ¬ (now > c.expires_at) := by omega
    simp [online_authenticate, offline_authenticate, hexp, derive_distribution_key, hdp]
  · intro hc
    subst hc
    simp [online_authenticate, offline_authenticate]
  · intro cred2
    simp [online_authenticate]
  · simp [is_authenticated, hu]

/-- Claim C4 (witness): the fallback policy at concrete inputs. -/
theorem c4_fallback_policy_witness :
    online_authenticate "dp" 105 .networkError (some cachedCred0) {} =
      (.returned true,
        { current_token := some "tok"
          current_user := some "info"
          is_online_mode := false
          key_initialized := true }) ∧
    online_authenticate "dp" 105 .networkError none {} = (.returned false, {}) ∧
    online_authenticate "dp" 105 .authError (some cachedCred0) {} = (.returned false, {}) :=
  ⟨(c4_fallback_policy "dp" 105 (some cachedCred0) {} (by decide) (by decide)).1
      cachedCred0 rfl (by decide),
   (c4_fallback_policy "dp" 105 none {} (by decide) (by decide)).2.1 rfl,
   (c4_fallback_policy "dp" 105 (some cachedCred0) {} (by decide) (by decide)).2.2.1
      (some cachedCred0)⟩

/-- Claim C10 (counterexample): a manager that was already authenticated and
whose re-authentication fails with `AuthError` returns `False` yet keeps the
old user and token — `is_authenticated()` is still `True` — so the claim as
stated fails. -/
theorem c10_counterexample :
    hybrid_authenticate "dp" 0 true .authError none authedState =
      (.returned false, authedState) ∧
    is_authenticated authedState = true ∧
    authedState.current_token = some "tok" := by
  decide

/-- Claim C10 (amended): starting from an unauthenticated manager (no user, no
token, no key) with a non-empty configured distribution password, whenever
`authenticate` returns `False` the state is completely unchanged: the manager
is unauthenticated, retains no token, user or key, and
`get_distribution_password` raises. -/
theorem c10_failed_auth_unauthenticated (dist_password : String) (now : Nat)
    (network_up : Bool) (login : LoginOutcome) (cred : Option OfflineCredential)
    (s s2 : HybridState)
    (hu : s.current_user = none) (ht : s.current_token = none)
    (hk : s.key_initialized = false) (hdp : dist_password ≠ "")
    (h : hybrid_authenticate dist_password now network_up login cred s =
      (.returned false, s2)) :
    s2 = s ∧ is_authenticated s2 = false ∧ s2.current_user = none ∧
    s2.current_token = none ∧ s2.key_initialized = false ∧
    get_distribution_password dist_password s2 = none := by
  have hs : s2 = s := by
    cases network_up with
    | false =>
      cases cred with
      | none => simpa [hybrid_authenticate, offline_authenticate] using (congrArg Prod.snd h).symm
      | some c =>
        by_cases hexp : now > c.expires_at
        · simp [hybrid_authenticate, offline_authenticate, hexp] at h
          exact h.symm
        · simp [hybrid_authenticate, offline_authenticate, hexp,
            derive_distribution_key, hdp] at h
    | true =>
      cases login with
      | authError =>
        simpa [hybrid_authenticate, online_authenticate] using (congrArg Prod.snd h).symm
      | networkError =>
        cases cred with
        | none => simpa [hybrid_authenticate, online_authenticate, offline_authenticate]
            using (congrArg Prod.snd h).symm
        | some c =>
          by_cases hexp : now > c.expires_at
          · simp [hybrid_authenticate, online_authenticate, offline_authenticate, hexp] at h
            exact h.symm
          · simp [hybrid_authenticate, online_authenticate, offline_authenticate, hexp,
              derive_distribution_key, hdp] at h
      | response success token user =>
        cases success with
        | false =>
          simpa [hybrid_authenticate, online_authenticate] using (congrArg Prod.snd h).symm
        | true =>
          simp [hybrid_authenticate, online_authenticate, derive_distribution_key, hdp] at h
  subst hs
  exact ⟨rfl, by simp [is_authenticated, hu], hu, ht, hk,
    by simp [get_distribution_password, is_authenticated, hu]⟩

/-- Claim C10 (witness): the amended statement at concrete inputs (offline
path with no cached credential). -/
theorem c10_failed_auth_witness :
    ({} : HybridState) = {} ∧ is_authenticated {} = false ∧
    ({} : HybridState).current_user = none ∧ ({} : HybridState).current_token = none ∧
    ({} : HybridState).key_initialized = false ∧
    get_distribution_password "dp" {} = none :=
  c10_failed_auth_unauthenticated "dp" 0 false .authError none {} {}
    rfl rfl rfl (by decide) (by decide)

/-- Claim C3 (counterexample): a failure in the final statistics/reporting
step — an I/O or processing error after work has begun — leaves the freshly
renamed package at `output_path`, where nothing existed before the call, so
the claim as stated fails. -/
theorem c3_counterexample :
    create_package_fs false false .reporting { tmp := none, out := none } =
      (.error, { tmp := none, out := some .package }) ∧
    some OutContent.package ≠ (none : Option OutContent) := by
  decide

/-- Claim C3 (amended): every failing invocation leaves no temporary file of
its own (any remaining `*.tmp` was already on disk before the call), and
`output_path` holds its prior content, nothing, or the completed package —
never a partial build. -/
theorem c3_no_partial_output (weak_password missing_source : Bool) (fail : BuildFail)
    (fs fs2 : BuildFS)
    (h : create_package_fs weak_password missing_source fail fs = (.error, fs2)) :
    (fs2.tmp = none ∨ fs2.tmp = fs.tmp) ∧
    (fs2.out = fs.out ∨ fs2.out = none ∨ fs2.out = some .package) := by
  cases weak_password <;> cases missing_source <;> cases fail <;>
    simp_all [create_package_fs, cleanupTmp] <;> subst h <;> simp

/-- Claim C3 (witness): the amended statement at a concrete failing build
(weak password, pre-existing files untouched). -/
theorem c3_no_partial_output_witness :
    ((({ tmp := some (.previous 1), out := some (.previous 2) } : BuildFS)).tmp = none ∨
      (({ tmp := some (.previous 1), out := some (.previous 2) } : BuildFS)).tmp =
        (({ tmp := some (.previous 1), out := some (.previous 2) } : BuildFS)).tmp) ∧
    ((({ tmp := some (.previous 1), out := some (.previous 2) } : BuildFS)).out =
        (({ tmp := some (.previous 1), out := some (.previous 2) } : BuildFS)).out ∨
      (({ tmp := some (.previous 1), out := some (.previous 2) } : BuildFS)).out = none ∨
      (({ tmp := some (.previous 1), out := some (.previous 2) } : BuildFS)).out =
        some .package) :=
  c3_no_partial_output true false .noFail
    { tmp := some (.previous 1), out := some (.previous 2) }
    { tmp := some (.previous 1), out := some (.previous 2) } (by decide)

/-- Claim C8: for every MD5-prefix function, the identifiers produced for
`duplicateTree` are NOT pairwise distinct — both files get the identifier
`zbaa_sid_<md5("x.pdf")[:8]>` because the airport code is lowercased — so the
builder can produce duplicate identifiers within one package. -/
theorem c8_duplicate_ids (md5hex8 : String → String) :
    ¬ (scan_ids md5hex8 duplicateTree).Nodup := by
  intro h
  have hl : scan_ids md5hex8 duplicateTree =
      [chart_file_id md5hex8 "ZBAA" "SID" "x.pdf",
       chart_file_id md5hex8 "zbaa" "SID" "x.pdf"] := rfl
  have heq : chart_file_id md5hex8 "ZBAA" "SID" "x.pdf" =
      chart_file_id md5hex8 "zbaa" "SID" "x.pdf" := rfl
  rw [hl] at h
  obtain ⟨hne, -⟩ := List.pairwise_cons.mp h
  exact hne _ (List.mem_singleton.mpr rfl) heq

/-- Claim C8 (witness): the duplicate identifiers at a concrete MD5-prefix
function. -/
theorem c8_duplicate_ids_witness :
    ¬ (scan_ids (fun _ => "0123abcd") duplicateTree).Nodup :=
  c8_duplicate_ids (fun _ => "0123abcd")

/-- Claim C1: in the concrete one-file build the reseal with updated absolute
offsets is LONGER than the first-pass sealed index (the offset `0` becomes a
four-digit absolute offset), and the header `index_length` — never updated
after the reseal — differs from the byte length of the sealed index actually
written at offset 512.  The claim (and the spec `MUST` it quotes) is violated
by the code for every package with at least one file. -/
theorem c1_reseal_length_mismatch :
    scenarioIndexLengths.1 ≠ scenarioIndexLengths.2 := by
  decide
